import Mathlib

/-!
Shallow embedding of `advent-day2-part1.py`: the `IntCodeAddStrategy` and
`IntCodeMultiplyStrategy` classes, and the `IntCodeComputer` class with its
`_restore_1202_state`, `_set_target_value` and `compute_int_code` methods.

Python semantics that matter here and are modelled explicitly:
  - list indexing `l[i]` accepts negative indices in `[-len, -1]` (they index
    from the end) and raises `IndexError` otherwise;
  - `+` on two ints adds, on two strings concatenates, and on a mixed pair
    raises `TypeError`;
  - `int(v)` is the identity on ints and parses a signed digit string,
    raising `ValueError` on anything else;
  - a raised exception is modelled as `none` / the failure branch of the
    surrounding handler.

The program's memory only ever holds integers (the caller supplies a list of
ints and both strategies return ints on int operands), so the interpreter
state uses `List Int`; the strategy methods themselves are value-agnostic in
the source and are modelled over `PyVal` (int-or-string operands).
-/

/-- An operand value as the strategy classes can receive it: a Python int or
a Python string. -/
inductive PyVal where
  | int (n : Int)
  | str (s : String)
deriving DecidableEq, Repr

/-- Numeric value of a list of decimal digit characters. -/
def digitsToNat (cs : List Char) : Nat :=
  cs.foldl (fun acc c => 10 * acc + (c.toNat - 48)) 0

/-- Python `int(s)` on a string: an optional sign followed by at least one
decimal digit; anything else raises `ValueError` (`none`). -/
def pyIntOfString (s : String) : Option Int :=
  match s.data with
  | [] => none
  | '-' :: rest =>
    if rest ≠ [] ∧ rest.all Char.isDigit then some (-(digitsToNat rest : Int)) else none
  | '+' :: rest =>
    if rest ≠ [] ∧ rest.all Char.isDigit then some ((digitsToNat rest : Int)) else none
  | cs =>
    if cs.all Char.isDigit then some ((digitsToNat cs : Int)) else none

/-- Python `int(v)`: identity on ints, digit-string parse on strings. -/
def pyToInt : PyVal → Option Int
  | .int n => some n
  | .str s => pyIntOfString s

/-- `IntCodeAddStrategy.calculate`: evaluates `first_value + second_value`
with Python `+` semantics; `TypeError`/`ValueError` is caught and the method
returns `None` (`none`). Two ints add, two strings concatenate, a mixed pair
raises `TypeError`. -/
def addCalculate : PyVal → PyVal → Option PyVal
  | .int a, .int b => some (.int (a + b))
  | .str a, .str b => some (.str (a ++ b))
  | _, _ => none

/-- `IntCodeMultiplyStrategy.calculate`: evaluates
`int(first_value) * int(second_value)`; `TypeError`/`ValueError` is caught
and the method returns `None` (`none`). -/
def multiplyCalculate (a b : PyVal) : Option PyVal :=
  match pyToInt a, pyToInt b with
  | some x, some y => some (.int (x * y))
  | _, _ => none

/-- Python list read `l[i]`: a non-negative index reads directly, an index in
`[-len, -1]` reads from the end, anything else raises `IndexError` (`none`). -/
def pyGet (l : List Int) (i : Int) : Option Int :=
  if 0 ≤ i then l[i.toNat]?
  else if 0 ≤ i + l.length then l[(i + (l.length : Int)).toNat]?
  else none

/-- Python list write `l[i] = v`: a non-negative index within bounds writes
directly, an index in `[-len, -1]` writes from the end, anything else raises
`IndexError` (`none`). -/
def pySet (l : List Int) (i : Int) (v : Int) : Option (List Int) :=
  if 0 ≤ i then
    if i < (l.length : Int) then some (l.set i.toNat v) else none
  else if 0 ≤ i + l.length then some (l.set (i + (l.length : Int)).toNat v) else none

/-- `IntCodeComputer._restore_1202_state` acting on the int-code list:
`self._int_code_list[1] = 12; self._int_code_list[2] = 2`. An `IndexError`
becomes a `CalculationException` (`none`). -/
def restore1202 (l : List Int) : Option (List Int) :=
  (pySet l 1 12).bind fun l1 => pySet l1 2 2

/-- The state of an `IntCodeComputer` instance: `_int_code_list` and
`_is_state_nominal`. -/
structure IntCodeComputer where
  int_code_list : List Int
  is_state_nominal : Bool
deriving DecidableEq, Repr

/-- `IntCodeComputer.__init__`: copies the caller's list and unconditionally
calls `_restore_1202_state`; a failure of the fixup raises
`CalculationException` out of the constructor (`none`). -/
def mkIntCodeComputer (l : List Int) : Option IntCodeComputer :=
  (restore1202 l).map fun m => ⟨m, true⟩

/-- `IntCodeComputer._set_target_value`: `None` raises
`CalculationException`; a value is stored at `target` with Python list-write
semantics. Only the int case of a present value is reachable: on integer
memory both strategies return ints (`addCalculate_int_int`,
`multiplyCalculate_int_int`). -/
def setTargetValue (mem : List Int) (target : Int) (value : Option PyVal) : Option (List Int) :=
  match value with
  | some (.int n) => pySet mem target n
  | _ => none

/-- Outcome of the `while cursor_pos < len(...)` loop inside
`compute_int_code`. -/
inductive LoopOutcome where
  | halted (mem : List Int)
  | ranOff (mem : List Int)
  | errored
deriving DecidableEq, Repr

/-- One iteration of the `while` body of `compute_int_code`, with the
source's exact order of operations: it fetches the strategy code and the two
operand positions, dereferences both operands, and fetches the target slot —
all before dispatching — then adds, multiplies, halts on 99, or raises on an
unknown code. `Sum.inl mem2` means the iteration completed normally with
updated memory; `Sum.inr` carries a final outcome (break on 99, or any
exception). -/
def loopStep (mem : List Int) (cursor_pos : Nat) : List Int ⊕ LoopOutcome :=
  match pyGet mem (cursor_pos : Int) with
  | none => .inr .errored
  | some strategy =>
    match pyGet mem ((cursor_pos : Int) + 1) with
    | none => .inr .errored
    | some value1_pos =>
      match pyGet mem value1_pos with
      | none => .inr .errored
      | some value1 =>
        match pyGet mem ((cursor_pos : Int) + 2) with
        | none => .inr .errored
        | some value2_pos =>
          match pyGet mem value2_pos with
          | none => .inr .errored
          | some value2 =>
            match pyGet mem ((cursor_pos : Int) + 3) with
            | none => .inr .errored
            | some target =>
              if strategy = 1 then
                match setTargetValue mem target (addCalculate (.int value1) (.int value2)) with
                | none => .inr .errored
                | some mem2 => .inl mem2
              else if strategy = 2 then
                match setTargetValue mem target (multiplyCalculate (.int value1) (.int value2)) with
                | none => .inr .errored
                | some mem2 => .inl mem2
              else if strategy = 99 then .inr (.halted mem)
              else .inr .errored

/-- The `while cursor_pos < len(...)` loop of `compute_int_code`: while the
cursor is in bounds, run one iteration of the body and advance the cursor by
4 (`_INSTR_SET_LEN`); leaving the loop without a break is the run-off-the-end
outcome.

`fuel` bounds the recursion; since the cursor grows by 4 each iteration and
the memory length never changes, `mem.length` iterations always suffice and
the bound is never observable from `computeIntCode`
(`runLoop_fuel_irrelevant`). -/
def runLoop : Nat → List Int → Nat → LoopOutcome
  | 0, mem, cursor_pos =>
    if cursor_pos < mem.length then .errored else .ranOff mem
  | fuel + 1, mem, cursor_pos =>
    if cursor_pos < mem.length then
      match loopStep mem cursor_pos with
      | .inl mem2 => runLoop fuel mem2 (cursor_pos + 4)
      | .inr out => out
    else .ranOff mem

/-- The body of the `try` block of `compute_int_code`: restore the 1202
state when not nominal, run the loop from cursor 0, and read
`_int_code_list[0]`. `none` is any exception reaching the `except` handler. -/
def computeCore (c : IntCodeComputer) : Option Int :=
  (if c.is_state_nominal then some c.int_code_list else restore1202 c.int_code_list).bind
    fun mem =>
      match runLoop mem.length mem 0 with
      | .halted m => pyGet m 0
      | .ranOff m => pyGet m 0
      | .errored => none

/-- `IntCodeComputer.compute_int_code`: returns `_int_code_list[0]` on a
normal run; any exception is caught and the fixed string
"Unknown. Prepare for impact." is returned instead. -/
def computeIntCode (c : IntCodeComputer) : Int ⊕ String :=
  match computeCore c with
  | some v => Sum.inl v
  | none => Sum.inr "Unknown. Prepare for impact."

-- Basic facts about the embedding.

/-- On integer operands the add strategy returns their integer sum. -/
theorem addCalculate_int_int (a b : Int) :
    addCalculate (.int a) (.int b) = some (.int (a + b)) := rfl

/-- On integer operands the multiply strategy returns their integer product. -/
theorem multiplyCalculate_int_int (a b : Int) :
    multiplyCalculate (.int a) (.int b) = some (.int (a * b)) := rfl

/-- A Python list write never changes the length of the list. -/
theorem pySet_length {l l2 : List Int} {i v : Int} (h : pySet l i v = some l2) :
    l2.length = l.length := by
  unfold pySet at h
  split at h
  · split at h
    · cases h; simp
    · cases h
  · split at h
    · cases h; simp
    · cases h

/-- A normally completed loop iteration never changes the memory length. -/
theorem loopStep_inl_length {mem mem2 : List Int} {c : Nat}
    (h : loopStep mem c = .inl mem2) : mem2.length = mem.length := by
  unfold loopStep at h
  split at h <;> try cases h
  split at h <;> try cases h
  split at h <;> try cases h
  split at h <;> try cases h
  split at h <;> try cases h
  split at h <;> try cases h
  split at h
  · split at h
    · cases h
    · rename_i hset
      cases h
      unfold setTargetValue at hset
      split at hset
      · exact pySet_length hset
      · cases hset
  · split at h
    · split at h
      · cases h
      · rename_i hset
        cases h
        unfold setTargetValue at hset
        split at hset
        · exact pySet_length hset
        · cases hset
    · split at h
      · cases h
      · cases h

/-- Once the cursor is at or past the end of memory, the loop exits with the
run-off outcome whatever fuel remains. -/
theorem runLoop_stop (g : Nat) (mem : List Int) (c : Nat) (h : mem.length ≤ c) :
    runLoop g mem c = .ranOff mem := by
  have hc : ¬ c < mem.length := Nat.not_lt.2 h
  cases g with
  | zero => simp [runLoop, hc]
  | succ n => simp [runLoop, hc]

/-- Unfolding equation for `runLoop` at positive fuel. -/
theorem runLoop_succ (fuel : Nat) (mem : List Int) (c : Nat) :
    runLoop (fuel + 1) mem c =
      if c < mem.length then
        match loopStep mem c with
        | .inl mem2 => runLoop fuel mem2 (c + 4)
        | .inr out => out
      else .ranOff mem := rfl

/-- The fuel parameter of `runLoop` is an artifact of the embedding: any two
fuels large enough for the cursor to reach the end of memory give the same
outcome. In particular the fuel `mem.length` used by `computeIntCode` is
enough, since the cursor grows by 4 per unit of fuel. -/
theorem runLoop_fuel_irrelevant :
    ∀ (f g : Nat) (mem : List Int) (c : Nat),
      mem.length ≤ c + 4 * f → mem.length ≤ c + 4 * g →
      runLoop f mem c = runLoop g mem c := by
  intro f
  induction f with
  | zero =>
    intro g mem c hf hg
    rw [runLoop_stop 0 mem c (by omega), runLoop_stop g mem c (by omega)]
  | succ n ih =>
    intro g mem c hf hg
    cases g with
    | zero =>
      rw [runLoop_stop (n + 1) mem c (by omega), runLoop_stop 0 mem c (by omega)]
    | succ m =>
      by_cases hc : c < mem.length
      · rw [runLoop_succ n mem c, runLoop_succ m mem c, if_pos hc, if_pos hc]
        cases hstep : loopStep mem c with
        | inl mem2 =>
          have hlen := loopStep_inl_length hstep
          exact ih m mem2 (c + 4) (by omega) (by omega)
        | inr out => rfl
      · rw [runLoop_succ n mem c, runLoop_succ m mem c, if_neg hc, if_neg hc]

-- Claim theorems.

/-- C7: `calculate` of the add strategy and of the multiply strategy is
commutative on every pair of integer operands. -/
theorem calculate_commutative (a b : Int) :
    addCalculate (.int a) (.int b) = addCalculate (.int b) (.int a) ∧
    multiplyCalculate (.int a) (.int b) = multiplyCalculate (.int b) (.int a) := by
  constructor
  · simp [addCalculate, Int.add_comm]
  · simp [multiplyCalculate, pyToInt, Int.mul_comm]

/-- C6 counterexample: two numeric-string operands given to the add strategy
are concatenated — `calculate` returns the present (wrong-but-valid) string
"23", not an error. -/
theorem add_concatenates_string_pair :
    addCalculate (.str "2") (.str "3") = some (.str "23") := by decide

/-- C6 (amended): the multiply strategy coerces numeric-string operands to
integers before multiplying; the add strategy does not coerce, and a mixed
int/string operand pair surfaces as an error (`None`), but a pair of string
operands is concatenated rather than erroring. -/
theorem multiply_coerces_add_does_not (s t : String) (m n : Int) (a : Int)
    (hs : pyIntOfString s = some m) (ht : pyIntOfString t = some n) :
    multiplyCalculate (.str s) (.str t) = some (.int (m * n)) ∧
    addCalculate (.int a) (.str s) = none ∧
    addCalculate (.str s) (.int a) = none ∧
    addCalculate (.str s) (.str t) = some (.str (s ++ t)) := by
  refine ⟨?_, rfl, rfl, rfl⟩
  simp [multiplyCalculate, pyToInt, hs, ht]

/-- Witness for `multiply_coerces_add_does_not` at s = "4", t = "5", a = 7. -/
theorem multiply_coerces_add_does_not_witness :
    multiplyCalculate (.str "4") (.str "5") = some (.int (4 * 5)) ∧
    addCalculate (.int 7) (.str "4") = none ∧
    addCalculate (.str "4") (.int 7) = none ∧
    addCalculate (.str "4") (.str "5") = some (.str ("4" ++ "5")) :=
  multiply_coerces_add_does_not "4" "5" 4 5 7 (by decide) (by decide)

/-- C1 counterexample: on the program [1,9,10,3,2,3,11,0,99,30,40,50] the
computer does not halt with 3500. -/
theorem scenario3_not_3500 :
    (mkIntCodeComputer [1, 9, 10, 3, 2, 3, 11, 0, 99, 30, 40, 50]).map computeIntCode ≠
      some (Sum.inl 3500) := by decide

/-- C1 (amended): on [1,9,10,3,2,3,11,0,99,30,40,50] the run ends in the
failure branch and returns the fixed error string instead of 3500: the
constructor's 1202 fixup rewrites slots 1 and 2, and the loop dereferences
the operand slots before checking for halt, so the run goes out of bounds. -/
theorem scenario3_returns_impact_string :
    (mkIntCodeComputer [1, 9, 10, 3, 2, 3, 11, 0, 99, 30, 40, 50]).map computeIntCode =
      some (Sum.inr "Unknown. Prepare for impact.") := by decide

/-- C2 counterexample: a program containing no 99 at all runs the cursor past
the end of memory and the computer still returns memory[0] (here 24) as a
normal value; no error of any kind is reported. -/
theorem runoff_without_halt_returns_value :
    List.all [1, 12, 2, 0, 1, 0, 0, 0, 1, 0, 0, 0, 1, 0, 0, 0] (fun x => x != 99) = true ∧
    (mkIntCodeComputer [1, 12, 2, 0, 1, 0, 0, 0, 1, 0, 0, 0, 1, 0, 0, 0]).map computeIntCode =
      some (Sum.inl 24) := by decide

/-- C2 (amended): when the loop leaves because the cursor passed the end of
memory without a halt and without an exception, compute_int_code returns
memory[0] as a normal value rather than failing with an unterminated-program
error. -/
theorem ranOff_returns_memory0 (c : IntCodeComputer) (m : List Int) (v : Int)
    (hnom : c.is_state_nominal = true)
    (hrun : runLoop c.int_code_list.length c.int_code_list 0 = .ranOff m)
    (hget : pyGet m 0 = some v) :
    computeIntCode c = Sum.inl v := by
  simp [computeIntCode, computeCore, hnom, hrun, hget]

/-- Witness for `ranOff_returns_memory0` on the no-99 program above. -/
theorem ranOff_returns_memory0_witness :
    computeIntCode ⟨[1, 12, 2, 0, 1, 0, 0, 0, 1, 0, 0, 0, 1, 0, 0, 0], true⟩ = Sum.inl 24 :=
  ranOff_returns_memory0 ⟨[1, 12, 2, 0, 1, 0, 0, 0, 1, 0, 0, 0, 1, 0, 0, 0], true⟩
    [24, 12, 2, 0, 1, 0, 0, 0, 1, 0, 0, 0, 1, 0, 0, 0] 24 rfl (by decide) (by decide)

/-- C3 counterexample: on [99,0,0] the halt opcode at cursor 0 is in bounds,
but before acting on it the interpreter fetches the operand slots; the first
operand address is 12 (written by the 1202 fixup) and dereferencing it is
out of bounds, so the run fails instead of halting normally. -/
theorem halt_missing_slots_fails :
    (mkIntCodeComputer [99, 0, 0]).map computeIntCode =
      some (Sum.inr "Unknown. Prepare for impact.") := by decide

/-- C3 (amended): a fetched 99 makes the loop stop with memory unchanged only
after the three following slots have been fetched and both operand addresses
dereferenced; when all five of those accesses succeed, the interpreter halts. -/
theorem halt_after_full_fetch (fuel : Nat) (mem : List Int) (c : Nat)
    (v1p v1 v2p v2 t : Int)
    (hc : c < mem.length)
    (h0 : pyGet mem (c : Int) = some 99)
    (h1 : pyGet mem ((c : Int) + 1) = some v1p)
    (h2 : pyGet mem v1p = some v1)
    (h3 : pyGet mem ((c : Int) + 2) = some v2p)
    (h4 : pyGet mem v2p = some v2)
    (h5 : pyGet mem ((c : Int) + 3) = some t) :
    runLoop (fuel + 1) mem c = .halted mem := by
  have hstep : loopStep mem c = .inr (.halted mem) := by
    simp [loopStep, h0, h1, h2, h3, h4, h5]
  rw [runLoop_succ, if_pos hc, hstep]

/-- Witness for `halt_after_full_fetch` on [99,0,0,0] at cursor 0. -/
theorem halt_after_full_fetch_witness :
    runLoop (0 + 1) [99, 0, 0, 0] 0 = .halted [99, 0, 0, 0] :=
  halt_after_full_fetch 0 [99, 0, 0, 0] 0 0 99 0 99 0 (by decide) (by decide)
    (by decide) (by decide) (by decide) (by decide) (by decide)

/-- C4 counterexample: the failed run on [77,0,0] (the fetch of operand
address 12 is out of bounds) returns the fixed substitute string through the
normal return value; the specific error is not surfaced to the caller. -/
theorem failed_run_returns_substitute :
    (mkIntCodeComputer [77, 0, 0]).map computeIntCode =
      some (Sum.inr "Unknown. Prepare for impact.") := by decide

/-- C4 (amended): every run whose loop raises internally makes
compute_int_code return the one fixed string "Unknown. Prepare for impact."
as its value — a substitute value rather than the specific error. -/
theorem errored_returns_impact_string (c : IntCodeComputer)
    (hnom : c.is_state_nominal = true)
    (hrun : runLoop c.int_code_list.length c.int_code_list 0 = .errored) :
    computeIntCode c = Sum.inr "Unknown. Prepare for impact." := by
  simp [computeIntCode, computeCore, hnom, hrun]

/-- Witness for `errored_returns_impact_string` on the memory [77,12,2]. -/
theorem errored_returns_impact_string_witness :
    computeIntCode ⟨[77, 12, 2], true⟩ = Sum.inr "Unknown. Prepare for impact." :=
  errored_returns_impact_string ⟨[77, 12, 2], true⟩ rfl (by decide)

/-- C5 counterexample: an instruction whose destination address is -1 writes
silently into the last slot (slot 12 of the memory becomes 9 = 7 + 2), the
run halts at the next instruction and returns memory[0]; nothing fails. -/
theorem negative_address_silent_wrap :
    runLoop 13 [1, 12, 2, -1, 99, 0, 0, 0, 0, 0, 0, 0, 7] 0 =
      .halted [1, 12, 2, -1, 99, 0, 0, 0, 0, 0, 0, 0, 9] ∧
    (mkIntCodeComputer [1, 12, 2, -1, 99, 0, 0, 0, 0, 0, 0, 0, 7]).map computeIntCode =
      some (Sum.inl 1) := by decide

/-- C5 (amended): a negative address a with -len ≤ a < 0 does not fail:
reads and writes silently use slot len + a (Python indexing from the end);
only addresses below -len, or non-negative ones at or past the length, raise
IndexError. -/
theorem negative_inrange_address_wraps (l : List Int) (i v : Int)
    (hneg : i < 0) (hin : 0 ≤ i + l.length) :
    pyGet l i = l[(i + (l.length : Int)).toNat]? ∧
    pySet l i v = some (l.set (i + (l.length : Int)).toNat v) := by
  have hni : ¬ (0 : Int) ≤ i := Int.not_le.2 hneg
  constructor
  · unfold pyGet
    rw [if_neg hni, if_pos hin]
  · unfold pySet
    rw [if_neg hni, if_pos hin]

/-- Witness for `negative_inrange_address_wraps` at l = [5,6,7], i = -1. -/
theorem negative_inrange_address_wraps_witness :
    pyGet [5, 6, 7] (-1) = ([5, 6, 7] : List Int)[2]? ∧
    pySet [5, 6, 7] (-1) 9 = some (List.set ([5, 6, 7] : List Int) 2 9) :=
  negative_inrange_address_wraps [5, 6, 7] (-1) 9 (by decide) (by decide)

/-- On a list of length at least 3, the 1202 fixup succeeds and sets slot 1
to 12 and slot 2 to 2. -/
theorem restore1202_eq (l : List Int) (h : 3 ≤ l.length) :
    restore1202 l = some ((l.set 1 12).set 2 2) := by
  have h1 : (1 : Int) < (l.length : Int) := by omega
  have h2 : (2 : Int) < ((l.set 1 12).length : Int) := by
    rw [List.length_set]; omega
  simp [restore1202, pySet, h1, h2]
  all_goals omega

/-- C8: the calibration fixup is idempotent — on any memory of length at
least 3 it succeeds, and applying it again to the result changes nothing. -/
theorem restore1202_idempotent (l : List Int) (h : 3 ≤ l.length) :
    restore1202 l = some ((l.set 1 12).set 2 2) ∧
    restore1202 ((l.set 1 12).set 2 2) = some ((l.set 1 12).set 2 2) := by
  refine ⟨restore1202_eq l h, ?_⟩
  rw [restore1202_eq _ (by simpa using h)]
  have hswap : (((l.set 1 12).set 2 2).set 1 12 : List Int) = (l.set 1 12).set 2 2 := by
    rw [List.set_comm 2 12 (l.set 1 12) (by decide), List.set_set]
  rw [hswap, List.set_set]

/-- Witness for `restore1202_idempotent` at [0,0,0]. -/
theorem restore1202_idempotent_witness :
    restore1202 [0, 0, 0] = some ((List.set ([0, 0, 0] : List Int) 1 12).set 2 2) ∧
    restore1202 ((List.set ([0, 0, 0] : List Int) 1 12).set 2 2) =
      some ((List.set ([0, 0, 0] : List Int) 1 12).set 2 2) :=
  restore1202_idempotent [0, 0, 0] (by decide)

/-- C9: construction always applies the 1202 override — on any caller list
of length at least 3 the constructor succeeds with memory
(l.set 1 12).set 2 2 in the nominal state, so slot 1 reads 12, slot 2 reads
2, the length is unchanged, and every other slot keeps the caller's value. -/
theorem construction_forces_override (l : List Int) (i : Nat) (h : 3 ≤ l.length)
    (h1 : i ≠ 1) (h2 : i ≠ 2) :
    mkIntCodeComputer l = some ⟨(l.set 1 12).set 2 2, true⟩ ∧
    ((l.set 1 12).set 2 2)[1]? = some 12 ∧
    ((l.set 1 12).set 2 2)[2]? = some 2 ∧
    ((l.set 1 12).set 2 2).length = l.length ∧
    ((l.set 1 12).set 2 2)[i]? = l[i]? := by
  refine ⟨?_, ?_, ?_, by simp, ?_⟩
  · simp [mkIntCodeComputer, restore1202_eq l h]
  · rw [List.getElem?_set_ne (by decide), List.getElem?_set_self (by omega)]
  · rw [List.getElem?_set_self (by rw [List.length_set]; omega)]
  · rw [List.getElem?_set_ne (Ne.symm h2), List.getElem?_set_ne (Ne.symm h1)]

/-- Witness for `construction_forces_override` at [7,8,9,10], slot 3. -/
theorem construction_forces_override_witness :
    mkIntCodeComputer [7, 8, 9, 10] =
      some ⟨(List.set ([7, 8, 9, 10] : List Int) 1 12).set 2 2, true⟩ ∧
    ((List.set ([7, 8, 9, 10] : List Int) 1 12).set 2 2)[1]? = some 12 ∧
    ((List.set ([7, 8, 9, 10] : List Int) 1 12).set 2 2)[2]? = some 2 ∧
    ((List.set ([7, 8, 9, 10] : List Int) 1 12).set 2 2).length =
      List.length ([7, 8, 9, 10] : List Int) ∧
    ((List.set ([7, 8, 9, 10] : List Int) 1 12).set 2 2)[3]? =
      ([7, 8, 9, 10] : List Int)[3]? :=
  construction_forces_override [7, 8, 9, 10] 3 (by decide) (by decide) (by decide)

/-- C10: compute_int_code never raises to its caller — every run returns
either an integer or the one fixed string "Unknown. Prepare for impact.", so
the return value carries no information about which error kind occurred. -/
theorem computeIntCode_never_raises (c : IntCodeComputer) :
    (∃ n : Int, computeIntCode c = Sum.inl n) ∨
    computeIntCode c = Sum.inr "Unknown. Prepare for impact." := by
  cases h : computeCore c with
  | none => exact Or.inr (by simp [computeIntCode, h])
  | some v => exact Or.inl ⟨v, by simp [computeIntCode, h]⟩

/-- Witness for `calculate_commutative` at a = 2, b = 3. -/
theorem calculate_commutative_witness :
    addCalculate (.int 2) (.int 3) = addCalculate (.int 3) (.int 2) ∧
    multiplyCalculate (.int 2) (.int 3) = multiplyCalculate (.int 3) (.int 2) :=
  calculate_commutative 2 3

/-- Witness for `computeIntCode_never_raises` at a concrete computer. -/
theorem computeIntCode_never_raises_witness :
    (∃ n : Int, computeIntCode ⟨[99, 12, 2], true⟩ = Sum.inl n) ∨
    computeIntCode ⟨[99, 12, 2], true⟩ = Sum.inr "Unknown. Prepare for impact." :=
  computeIntCode_never_raises ⟨[99, 12, 2], true⟩
